import Mathlib

/-!
Verification of the mock payment / QR transaction-tracker component of the
backend-ecomerce-shirt repository.

The component has two in-memory ledger variants in the source:
* `app/services/mock_payment_service.py` (`MockPaymentService`), keyed by the
  caller-supplied `order_id`;
* `app/services/bakong_mock.py` (`MockBakongService`), keyed by an MD5 hash
  derived from the inputs, a timestamp and a random nonce.

The embedding below translates both services.  Python dictionaries become
association lists with insert-or-update assignment, timestamps become
rationals (seconds), each call to `random.random()` becomes an explicit
rational argument `r` with `0 <= r < 1`, `uuid.uuid4()` / `random.randint`
become explicit arguments, and the external `hashlib.md5` hex digest is an
arbitrary function parameter `md5Hex`.
-/

/-- Python dictionary lookup `d[k]` / `k in d` over an association list. -/
def dictGet {α : Type} (s : List (String × α)) (k : String) : Option α :=
  match s with
  | [] => none
  | (k', v) :: rest => if k' = k then some v else dictGet rest k

/-- Python dictionary assignment `d[k] = v`: update in place if the key is
present, otherwise append a fresh entry. -/
def dictSet {α : Type} (s : List (String × α)) (k : String) (v : α) :
    List (String × α) :=
  match s with
  | [] => [(k, v)]
  | (k', v') :: rest =>
      if k' = k then (k, v) :: rest else (k', v') :: dictSet rest k v

/-- Python `int()` applied to a rational: truncation toward zero. -/
def pyInt (q : ℚ) : ℤ :=
  if q < 0 then -⌊-q⌋ else ⌊q⌋

namespace MockPaymentService

/-- The status strings stored in `MockPaymentService.payments[...]["status"]`:
`"UNPAID"` at creation, `"PAID"` after a flip. -/
inductive MPStatus where
  | unpaid
  | paid
deriving DecidableEq, Repr

/-- The status string as returned to callers (`payment["status"]`). -/
def MPStatus.str : MPStatus → String
  | .unpaid => "UNPAID"
  | .paid => "PAID"

/-- One entry of `MockPaymentService.payments`, the dictionary built in
`create_payment_qr`; `paid_at` is absent (`none`) until a PAID flip adds it. -/
structure MPayment where
  payment_id : String
  order_id : String
  amount : ℚ
  currency : String
  phone_number : String
  status : MPStatus
  created_at : ℚ
  qr_data : String
  md5 : String
  deeplink : String
  bill_number : String
  paid_at : Option ℚ
deriving DecidableEq, Repr

/-- The in-memory ledger `self.payments`, keyed by `order_id`. -/
abbrev MPState := List (String × MPayment)

/-- Return value of `create_payment_qr` (note: it carries no currency). -/
structure MPCreateResult where
  success : Bool
  qr_data : String
  md5 : String
  deeplink : String
  bill_number : String
  order_id : String
deriving DecidableEq, Repr

/-- The nested `payment_info` dictionary of `check_payment_status`. -/
structure MPPaymentInfo where
  payment_id : String
  amount : ℚ
  paid_at : Option ℚ
deriving DecidableEq, Repr

/-- Return value of `check_payment_status`. -/
structure MPStatusResult where
  success : Bool
  status : Option String
  payment_info : Option MPPaymentInfo
  error : Option String
deriving DecidableEq, Repr

/-- `MockPaymentService.create_payment_qr`: stores a fresh record under the
caller-supplied `order_id` (dictionary assignment: an existing record for the
same `order_id` is replaced) and returns the mock QR fields.  `payment_id`
stands for the `uuid.uuid4()` draw and `now` for `datetime.now()`. -/
def create_payment_qr (s : MPState) (order_id : String) (amount : ℚ)
    (phone_number : String) (payment_id : String) (now : ℚ) :
    MPCreateResult × MPState :=
  let payment : MPayment :=
    { payment_id := payment_id
      order_id := order_id
      amount := amount
      currency := "USD"
      phone_number := phone_number
      status := .unpaid
      created_at := now
      qr_data := "mock_qr_data_" ++ payment_id
      md5 := "mock_md5_" ++ payment_id
      deeplink := "mock_deeplink_" ++ payment_id
      bill_number := "bill_" ++ order_id
      paid_at := none }
  ({ success := true
     qr_data := "mock_qr_data_" ++ payment_id
     md5 := "mock_md5_" ++ payment_id
     deeplink := "mock_deeplink_" ++ payment_id
     bill_number := "bill_" ++ order_id
     order_id := order_id },
   dictSet s order_id payment)

/-- `MockPaymentService.check_payment_status`: on a known `order_id`, the call
flips the record to PAID (setting `paid_at = now`) whenever the fresh
`random.random()` draw `r` satisfies `r > 0.7`, regardless of elapsed time,
then reports the (possibly updated) record; on an unknown `order_id` it
reports failure. -/
def check_payment_status (s : MPState) (order_id : String) (now r : ℚ) :
    MPStatusResult × MPState :=
  match dictGet s order_id with
  | some payment =>
      let payment' :=
        if r > 7/10 then { payment with status := .paid, paid_at := some now }
        else payment
      let s' := if r > 7/10 then dictSet s order_id payment' else s
      ({ success := true
         status := some payment'.status.str
         payment_info := some
           { payment_id := payment'.payment_id
             amount := payment'.amount
             paid_at := payment'.paid_at }
         error := none }, s')
  | none =>
      ({ success := false
         status := none
         payment_info := none
         error := some "Payment not found" }, s)

/-- `MockPaymentService.simulate_payment`: if the `order_id` is known, set its
status to PAID and `paid_at` to the current time; otherwise do nothing.  The
Python method returns `None` in both cases. -/
def simulate_payment (s : MPState) (order_id : String) (now : ℚ) : MPState :=
  match dictGet s order_id with
  | some payment =>
      dictSet s order_id { payment with status := .paid, paid_at := some now }
  | none => s

end MockPaymentService

namespace MockPaymentRouter

open MockPaymentService

/-- The request body of `POST /create-qr` in `app/routers/mock_payment.py`. -/
structure PaymentRequest where
  order_id : String
  amount : ℚ
  currency : String
deriving DecidableEq, Repr

/-- Router `create_payment_qr`: forwards `order_id`, `amount` and the user's
phone number to the service.  The request's `currency` field is not passed
on. -/
def create_payment_qr (s : MPState) (req : PaymentRequest)
    (phone_number payment_id : String) (now : ℚ) : MPCreateResult × MPState :=
  MockPaymentService.create_payment_qr s req.order_id req.amount phone_number
    payment_id now

/-- Return value of the router's `simulate_payment` endpoint. -/
structure SimulateResult where
  success : Bool
  message : String
deriving DecidableEq, Repr

/-- Router `simulate_payment`: calls the service and unconditionally reports
success. -/
def simulate_payment (s : MPState) (order_id : String) (now : ℚ) :
    SimulateResult × MPState :=
  ({ success := true, message := "Payment simulated successfully" },
   MockPaymentService.simulate_payment s order_id now)

end MockPaymentRouter

namespace MockBakongService

/-- The status strings stored in `MockBakongService.transactions[...]["status"]`:
`"pending"` at creation, `"paid"` after the timed random flip. -/
inductive BStatus where
  | pending
  | paid
deriving DecidableEq, Repr

/-- `transaction["status"].upper()`. -/
def BStatus.upper : BStatus → String
  | .pending => "PENDING"
  | .paid => "PAID"

/-- One entry of `MockBakongService.transactions`; `created_at` is stored as an
ISO string in the source and parsed back with `fromisoformat`, modelled here
directly as the timestamp (seconds). -/
structure BTxn where
  qr_string : String
  amount : ℚ
  currency : String
  bank_account : String
  merchant_name : String
  bill_number : Option String
  created_at : ℚ
  status : BStatus
deriving DecidableEq, Repr

/-- The in-memory ledger `self.transactions`, keyed by the MD5 hex digest. -/
abbrev BState := List (String × BTxn)

/-- The dictionary that `create_qr` JSON-serialises and base64-encodes into
`qr_image`; modelled as its decoded content. -/
structure BQrData where
  bank_account : String
  merchant : String
  amount : ℚ
  currency : String
  bill : Option String
  timestamp : String
deriving DecidableEq, Repr

/-- Return value of `create_qr`. -/
structure BCreateResult where
  success : Bool
  qr_string : String
  qr_image : BQrData
  md5 : String
  amount : ℚ
  currency : String
deriving DecidableEq, Repr

/-- The mock KHQR payload string built by `create_qr`. -/
def mkQrString (bank_account : String) (currency : String)
    (merchant_name : String) (timestamp : String) (amount : ℚ)
    (md5 : String) : String :=
  "00020101021229180014" ++ bank_account ++ "520459995802" ++ currency ++
    "5909" ++ merchant_name ++ "6010Phnom Penh9917" ++ timestamp ++ "5411" ++
    toString (pyInt (amount * 100)) ++
    (if currency = "USD" then "5303" ++ currency else "5303KHR") ++
    "6304" ++ md5.take 4

/-- `MockBakongService.create_qr`: derives the MD5 key from the inputs, the
current time and a random 6-digit nonce, stores a `"pending"` record under it
(dictionary assignment) and returns the mock QR fields.  `md5Hex` stands for
the external `hashlib.md5(...).hexdigest()`, `now` for `time.time()` /
`datetime.now()`, and `nonce` for `random.randint(100000, 999999)`. -/
def create_qr (md5Hex : String → String) (s : BState) (bank_account : String)
    (merchant_name : String) (amount : ℚ) (currency : String)
    (bill_number : Option String) (now : ℚ) (nonce : ℕ) :
    BCreateResult × BState :=
  let timestamp := toString (pyInt now)
  let random_str := toString nonce
  let md5_input :=
    bank_account ++ toString amount ++ currency ++ timestamp ++ random_str
  let md5 := md5Hex md5_input
  let qr_string := mkQrString bank_account currency merchant_name timestamp
    amount md5
  let qr_data : BQrData :=
    { bank_account := bank_account
      merchant := merchant_name
      amount := amount
      currency := currency
      bill := bill_number
      timestamp := timestamp }
  let txn : BTxn :=
    { qr_string := qr_string
      amount := amount
      currency := currency
      bank_account := bank_account
      merchant_name := merchant_name
      bill_number := bill_number
      created_at := now
      status := .pending }
  ({ success := true
     qr_string := qr_string
     qr_image := qr_data
     md5 := md5
     amount := amount
     currency := currency },
   dictSet s md5 txn)

/-- `MockBakongService.check_payment`: `"NOT_FOUND"` on an unknown key;
otherwise, when more than 30 seconds have elapsed since creation AND the fresh
`random.random()` draw `r` satisfies `r < 0.8`, the record's status is set to
`"paid"` and `"PAID"` is returned; in every other case the stored status is
returned uppercased and the ledger is left unchanged. -/
def check_payment (s : BState) (md5 : String) (now r : ℚ) :
    String × BState :=
  match dictGet s md5 with
  | none => ("NOT_FOUND", s)
  | some txn =>
      if now - txn.created_at > 30 ∧ r < 4/5 then
        ("PAID", dictSet s md5 { txn with status := .paid })
      else
        (txn.status.upper, s)

/-- Return value of `get_payment_info`; the Python method returns one of two
dictionary shapes, modelled as optional fields. -/
structure BPaymentInfo where
  success : Bool
  error : Option String
  hash : Option String
  fromAccountId : Option String
  toAccountId : Option String
  currency : Option String
  amount : Option ℚ
  description : Option (Option String)
  createdDateMs : Option ℤ
  acknowledgedDateMs : Option ℤ
  trackingStatus : Option String
  status : Option String
deriving DecidableEq, Repr

/-- `MockBakongService.get_payment_info`: on an unknown key reports failure;
otherwise it calls `check_payment` (which can mutate the stored status) and
reports either the full paid-payment projection or the bare status.
`description` is `transaction.get("bill_number", "Payment")`; the key is
always present (possibly `None`), so the stored `bill_number` is returned. -/
def get_payment_info (s : BState) (md5 : String) (now r : ℚ) :
    BPaymentInfo × BState :=
  match dictGet s md5 with
  | none =>
      ({ success := false
         error := some "Transaction not found"
         hash := none, fromAccountId := none, toAccountId := none
         currency := none, amount := none, description := none
         createdDateMs := none, acknowledgedDateMs := none
         trackingStatus := none, status := none }, s)
  | some txn =>
      let res := check_payment s md5 now r
      if res.1 = "PAID" then
        ({ success := true
           error := none
           hash := some md5
           fromAccountId := some "mock_user@mock_bank"
           toAccountId := some txn.bank_account
           currency := some txn.currency
           amount := some txn.amount
           description := some txn.bill_number
           createdDateMs := some (pyInt (txn.created_at * 1000))
           acknowledgedDateMs := some (pyInt ((txn.created_at + 30) * 1000))
           trackingStatus := some "completed"
           status := none }, res.2)
      else
        ({ success := true
           error := none
           hash := some md5
           fromAccountId := none, toAccountId := none
           currency := none, amount := none, description := none
           createdDateMs := none, acknowledgedDateMs := none
           trackingStatus := none
           status := some res.1 }, res.2)

end MockBakongService

namespace MockPaymentService

/-- One client-visible operation on the `MockPaymentService` ledger.  The
time and randomness consumed by each call are carried explicitly. -/
inductive MPOp where
  | create (order_id : String) (amount : ℚ)
      (phone_number payment_id : String) (now : ℚ)
  | check (order_id : String) (now r : ℚ)
  | simulate (order_id : String) (now : ℚ)
deriving DecidableEq, Repr

/-- The ledger-state effect of one operation. -/
def MPOp.apply (s : MPState) : MPOp → MPState
  | .create oid amt ph pid now => (create_payment_qr s oid amt ph pid now).2
  | .check oid now r => (check_payment_status s oid now r).2
  | .simulate oid now => simulate_payment s oid now

/-- Run a sequence of operations against the ledger. -/
def runOps (s : MPState) (ops : List MPOp) : MPState :=
  ops.foldl MPOp.apply s

/-- Whether an operation is a `create_payment_qr` call for the given
`order_id` (the only operation that can replace an existing record). -/
def MPOp.isCreateOf (o : String) : MPOp → Bool
  | .create oid _ _ _ _ => oid = o
  | _ => false

/-- The `paid_at` field of a ledger record is present exactly when its status
is PAID. -/
def PaidAtInv (s : MPState) : Prop :=
  ∀ k p, dictGet s k = some p → (p.paid_at.isSome = true ↔ p.status = MPStatus.paid)

/-- A concrete run used to evaluate the service on explicit inputs: a fresh
ledger, one created record for order `o1`, a simulated payment at time 5, a
second `create_payment_qr` for the same order at time 6, and (separately) a
second simulated payment at time 9. -/
def exState1 : MPState := (create_payment_qr [] "o1" 10 "855" "pid1" 0).2

/-- State after `simulate_payment` at time 5. -/
def exState2 : MPState := simulate_payment exState1 "o1" 5

/-- State after a second `create_payment_qr` for the same order at time 6. -/
def exState3 : MPState := (create_payment_qr exState2 "o1" 10 "855" "pid2" 6).2

/-- State after a second `simulate_payment` at time 9 (applied to `exState2`). -/
def exState4 : MPState := simulate_payment exState2 "o1" 9

end MockPaymentService

namespace MockBakongService

/-- A concrete pending transaction created at time 0, used to evaluate
`check_payment` and `get_payment_info` on explicit inputs. -/
def exTxn : BTxn :=
  { qr_string := "qr"
    amount := 10
    currency := "USD"
    bank_account := "acct@bank"
    merchant_name := "Lumina"
    bill_number := none
    created_at := 0
    status := .pending }

/-- A one-record ledger holding `exTxn` under key `k1`. -/
def exBState : BState := [("k1", exTxn)]

end MockBakongService

section DictLemmas

theorem dictGet_dictSet_self {α : Type} (s : List (String × α)) (k : String)
    (v : α) : dictGet (dictSet s k v) k = some v := by
  induction s with
  | nil => simp [dictGet, dictSet]
  | cons hd tl ih =>
      obtain ⟨k', v'⟩ := hd
      by_cases h : k' = k
      · simp [dictGet, dictSet, h]
      · simp [dictGet, dictSet, h, ih]

theorem dictGet_dictSet_other {α : Type} (s : List (String × α))
    (k k' : String) (v : α) (hne : k' ≠ k) :
    dictGet (dictSet s k v) k' = dictGet s k' := by
  induction s with
  | nil => simp [dictGet, dictSet, Ne.symm hne]
  | cons hd tl ih =>
      obtain ⟨k0, v0⟩ := hd
      by_cases h : k0 = k
      · subst h
        simp [dictGet, dictSet, Ne.symm hne]
      · simp only [dictSet, if_neg h, dictGet]
        by_cases h' : k0 = k'
        · simp [h']
        · simp [h', ih]

theorem dictGet_dictSet_cases {α : Type} (s : List (String × α))
    (k k' : String) (v p : α) (h : dictGet (dictSet s k v) k' = some p) :
    (k' = k ∧ p = v) ∨ (k' ≠ k ∧ dictGet s k' = some p) := by
  by_cases hk : k' = k
  · subst hk
    rw [dictGet_dictSet_self] at h
    exact Or.inl ⟨rfl, (Option.some_injective _ h).symm⟩
  · rw [dictGet_dictSet_other s k k' v hk] at h
    exact Or.inr ⟨hk, h⟩

end DictLemmas

namespace MockPaymentService

/-- A single non-`create` operation on a given `order_id` cannot take that
record out of the PAID status. -/
theorem apply_preserves_paid (s : MPState) (o : String) (op : MPOp)
    (hop : op.isCreateOf o = false) (p : MPayment)
    (hfind : dictGet s o = some p) (hpaid : p.status = MPStatus.paid) :
    ∃ q, dictGet (op.apply s) o = some q ∧ q.status = MPStatus.paid := by
  cases op with
  | create oid amt ph pid now =>
      have hne : o ≠ oid := by
        intro h
        simp [MPOp.isCreateOf, h] at hop
      rw [MPOp.apply, create_payment_qr]
      rw [dictGet_dictSet_other _ _ _ _ hne]
      exact ⟨p, hfind, hpaid⟩
  | check oid now r =>
      rw [MPOp.apply, check_payment_status]
      by_cases hoid : o = oid
      · subst hoid
        rw [hfind]
        by_cases hr : r > 7/10
        · simp only [hr, if_pos]
          exact ⟨_, dictGet_dictSet_self s o _, rfl⟩
        · simp only [hr, if_neg, ite_false]
          exact ⟨p, hfind, hpaid⟩
      · cases hfind' : dictGet s oid with
        | none => exact ⟨p, hfind, hpaid⟩
        | some q =>
            by_cases hr : r > 7/10
            · simp only [hfind', hr, if_pos]
              rw [dictGet_dictSet_other _ _ _ _ hoid]
              exact ⟨p, hfind, hpaid⟩
            · simp only [hfind', hr, ite_false, if_neg]
              exact ⟨p, hfind, hpaid⟩
  | simulate oid now =>
      rw [MPOp.apply, simulate_payment]
      by_cases hoid : o = oid
      · subst hoid
        rw [hfind]
        exact ⟨_, dictGet_dictSet_self s o _, rfl⟩
      · cases hfind' : dictGet s oid with
        | none => exact ⟨p, hfind, hpaid⟩
        | some q =>
            rw [dictGet_dictSet_other _ _ _ _ hoid]
            exact ⟨p, hfind, hpaid⟩

/-- PAID status is preserved along any sequence of operations that contains
no `create` for the given `order_id`. -/
theorem runOps_preserves_paid (ops : List MPOp) (s : MPState) (o : String)
    (hops : ∀ op ∈ ops, op.isCreateOf o = false) (p : MPayment)
    (hfind : dictGet s o = some p) (hpaid : p.status = MPStatus.paid) :
    ∃ q, dictGet (runOps s ops) o = some q ∧ q.status = MPStatus.paid := by
  induction ops generalizing s p with
  | nil => exact ⟨p, hfind, hpaid⟩
  | cons op rest ih =>
      obtain ⟨q, hq, hqpaid⟩ :=
        apply_preserves_paid s o op (hops op (by simp)) p hfind hpaid
      have hrest : ∀ op' ∈ rest, op'.isCreateOf o = false :=
        fun op' h' => hops op' (List.mem_cons_of_mem _ h')
      simpa [runOps] using ih (op.apply s) hrest q hq hqpaid

/-- On a record whose status is PAID, `check_payment_status` reports
`"PAID"` whatever the time and the random draw. -/
theorem check_status_on_paid (s : MPState) (o : String) (now r : ℚ)
    (p : MPayment) (hfind : dictGet s o = some p)
    (hpaid : p.status = MPStatus.paid) :
    (check_payment_status s o now r).1.status = some "PAID" := by
  rw [check_payment_status, hfind]
  by_cases hr : r > 7/10 <;> simp [hr, MPStatus.str, hpaid]

/-- Every single operation preserves the `paid_at`-iff-PAID invariant. -/
theorem apply_preserves_paidAtInv (s : MPState) (op : MPOp)
    (hinv : PaidAtInv s) : PaidAtInv (op.apply s) := by
  cases op with
  | create oid amt ph pid now =>
      intro k p hk
      rw [MPOp.apply, create_payment_qr] at hk
      rcases dictGet_dictSet_cases _ _ _ _ _ hk with ⟨_, rfl⟩ | ⟨_, hk'⟩
      · simp
      · exact hinv k p hk'
  | check oid now r =>
      intro k p hk
      rw [MPOp.apply, check_payment_status] at hk
      cases hfind : dictGet s oid with
      | none =>
          rw [hfind] at hk
          exact hinv k p hk
      | some q =>
          rw [hfind] at hk
          by_cases hr : r > 7/10
          · simp only [hr, if_pos] at hk
            rcases dictGet_dictSet_cases _ _ _ _ _ hk with ⟨_, rfl⟩ | ⟨_, hk'⟩
            · simp
            · exact hinv k p hk'
          · simp only [hr, ite_false, if_neg] at hk
            exact hinv k p hk
  | simulate oid now =>
      intro k p hk
      rw [MPOp.apply, simulate_payment] at hk
      cases hfind : dictGet s oid with
      | none =>
          rw [hfind] at hk
          exact hinv k p hk
      | some q =>
          rw [hfind] at hk
          rcases dictGet_dictSet_cases _ _ _ _ _ hk with ⟨_, rfl⟩ | ⟨_, hk'⟩
          · simp
          · exact hinv k p hk'

/-- The `paid_at`-iff-PAID invariant is preserved by any sequence of
operations. -/
theorem runOps_preserves_paidAtInv (ops : List MPOp) (s : MPState)
    (hinv : PaidAtInv s) : PaidAtInv (runOps s ops) := by
  induction ops generalizing s with
  | nil => exact hinv
  | cons op rest ih =>
      simpa [runOps] using ih (op.apply s) (apply_preserves_paidAtInv s op hinv)

/-- The empty ledger satisfies the `paid_at`-iff-PAID invariant. -/
theorem paidAtInv_nil : PaidAtInv [] := by
  intro k p hk
  simp [dictGet] at hk

end MockPaymentService

open MockPaymentService MockBakongService MockPaymentRouter

/-- Claim C1, counterexample: a record created at time 0 and checked at time
31 (past the 30-second threshold) with random draw 0.9 still answers
`"PENDING"` and is left untouched, so the PENDING-to-PAID transition at the
threshold is not deterministic. -/
theorem C1_counterexample :
    (check_payment exBState "k1" 31 (9/10)).1 = "PENDING" ∧
    (check_payment exBState "k1" 31 (9/10)).2 = exBState := by
  constructor
  · norm_num [check_payment, exBState, exTxn, dictGet, BStatus.upper]
  · norm_num [check_payment, exBState, exTxn, dictGet]

/-- Claim C1 (amended): under the elapsed-time policy of
`MockBakongService.check_payment`, once `now - created_at` exceeds the
30-second threshold a status check transitions the record PENDING to PAID and
returns `"PAID"` exactly when the per-call random draw is below 0.8 (an 80%
chance per check, not deterministically); this variant stores no `paid_at`
field at all. -/
theorem C1_threshold_paid_amended (s : BState) (m : String) (now r : ℚ)
    (t : BTxn) (hfind : dictGet s m = some t)
    (helapsed : now - t.created_at > 30) (hdraw : r < 4/5) :
    (check_payment s m now r).1 = "PAID" ∧
    dictGet (check_payment s m now r).2 m =
      some { t with status := BStatus.paid } := by
  simp only [check_payment, hfind]
  rw [if_pos ⟨helapsed, hdraw⟩]
  exact ⟨rfl, dictGet_dictSet_self s m _⟩

/-- Claim C1, witness: the amended theorem applied to the concrete ledger
`exBState` at time 31 with draw 0.5. -/
theorem C1_witness :
    (check_payment exBState "k1" 31 (1/2)).1 = "PAID" ∧
    dictGet (check_payment exBState "k1" 31 (1/2)).2 "k1" =
      some { exTxn with status := BStatus.paid } :=
  C1_threshold_paid_amended exBState "k1" 31 (1/2) exTxn rfl
    (by norm_num [exTxn]) (by norm_num)

/-- Claim C3, counterexample: `create_payment_qr` with amount 0 succeeds and
inserts a record (no `InvalidAmount`), and `create_qr` with currency `"EUR"`
succeeds and inserts a record (no `UnsupportedCurrency`): neither variant
validates its inputs before mutating the ledger. -/
theorem C3_counterexample :
    (MockPaymentService.create_payment_qr [] "o1" 0 "855" "pid" 0).1.success
      = true ∧
    (dictGet (MockPaymentService.create_payment_qr [] "o1" 0 "855" "pid" 0).2
        "o1").map MPayment.amount = some 0 ∧
    (create_qr (fun x => x) [] "acct" "m" 5 "EUR" none 0 111111).1.success
      = true ∧
    ((create_qr (fun x => x) [] "acct" "m" 5 "EUR" none 0 111111).2.map
        (fun kv => kv.2.currency)) = ["EUR"] := by
  refine ⟨rfl, ?_, rfl, rfl⟩
  simp [MockPaymentService.create_payment_qr, dictGet_dictSet_self]

/-- Claim C3 (amended): neither create operation performs any input
validation: for every amount (including zero and negatives) and every
currency string, `MockPaymentService.create_payment_qr` and
`MockBakongService.create_qr` report success and insert a record carrying
the given amount and currency unchanged, with pending status. -/
theorem C3_no_validation_amended :
    (∀ (s : MPState) (oid : String) (amount : ℚ) (ph pid : String) (now : ℚ),
      (MockPaymentService.create_payment_qr s oid amount ph pid now).1.success
        = true ∧
      (dictGet (MockPaymentService.create_payment_qr s oid amount ph pid
          now).2 oid).map MPayment.amount = some amount ∧
      (dictGet (MockPaymentService.create_payment_qr s oid amount ph pid
          now).2 oid).map MPayment.status = some MPStatus.unpaid) ∧
    (∀ (md5Hex : String → String) (bs : BState) (ba mn : String) (amt : ℚ)
      (curr : String) (bill : Option String) (now : ℚ) (nonce : ℕ),
      (create_qr md5Hex bs ba mn amt curr bill now nonce).1.success = true ∧
      (dictGet (create_qr md5Hex bs ba mn amt curr bill now nonce).2
          (md5Hex (ba ++ toString amt ++ curr ++ toString (pyInt now) ++
            toString nonce))).map BTxn.amount = some amt ∧
      (dictGet (create_qr md5Hex bs ba mn amt curr bill now nonce).2
          (md5Hex (ba ++ toString amt ++ curr ++ toString (pyInt now) ++
            toString nonce))).map BTxn.currency = some curr ∧
      (dictGet (create_qr md5Hex bs ba mn amt curr bill now nonce).2
          (md5Hex (ba ++ toString amt ++ curr ++ toString (pyInt now) ++
            toString nonce))).map BTxn.status = some BStatus.pending) := by
  constructor
  · intro s oid amount ph pid now
    refine ⟨rfl, ?_, ?_⟩ <;>
      simp [MockPaymentService.create_payment_qr, dictGet_dictSet_self]
  · intro md5Hex bs ba mn amt curr bill now nonce
    refine ⟨rfl, ?_, ?_, ?_⟩ <;>
      simp [create_qr, dictGet_dictSet_self]

/-- Claim C4, counterexample: in the `MockPaymentService` variant a status
check on a freshly created record (elapsed time 0) with random draw 0.9
already answers `"PAID"` and flips the stored record, so two immediate checks
need not both return PENDING. -/
theorem C4_counterexample :
    (check_payment_status exState1 "o1" 0 (9/10)).1.status = some "PAID" ∧
    (dictGet (check_payment_status exState1 "o1" 0 (9/10)).2 "o1").map
        MPayment.status = some MPStatus.paid := by
  constructor
  · norm_num [check_payment_status, exState1,
      MockPaymentService.create_payment_qr, dictGet, dictSet, MPStatus.str]
  · norm_num [check_payment_status, exState1,
      MockPaymentService.create_payment_qr, dictGet, dictSet]

/-- Claim C4 (amended): in the `MockBakongService` variant, any two status
checks made at most 30 seconds after creation of a pending record both return
`"PENDING"` and leave the ledger unchanged, whatever the random draws; the
`MockPaymentService` variant has no elapsed-time guard and may answer PAID on
the very first check (see the counterexample). -/
theorem C4_idempotent_amended (s : BState) (m : String) (now1 now2 r1 r2 : ℚ)
    (t : BTxn) (hfind : dictGet s m = some t)
    (hpending : t.status = BStatus.pending)
    (h1 : now1 - t.created_at ≤ 30) (h2 : now2 - t.created_at ≤ 30) :
    check_payment s m now1 r1 = ("PENDING", s) ∧
    check_payment s m now2 r2 = ("PENDING", s) := by
  constructor
  · simp only [check_payment, hfind]
    rw [if_neg fun hc => absurd hc.1 (not_lt.mpr h1)]
    simp [BStatus.upper, hpending]
  · simp only [check_payment, hfind]
    rw [if_neg fun hc => absurd hc.1 (not_lt.mpr h2)]
    simp [BStatus.upper, hpending]

/-- Claim C4, witness: the amended theorem applied to the concrete ledger
`exBState` with checks at times 1 and 2 and draws 0.5 and 0.9. -/
theorem C4_witness :
    check_payment exBState "k1" 1 (1/2) = ("PENDING", exBState) ∧
    check_payment exBState "k1" 2 (9/10) = ("PENDING", exBState) :=
  C4_idempotent_amended exBState "k1" 1 2 (1/2) (9/10) exTxn rfl rfl
    (by norm_num [exTxn]) (by norm_num [exTxn])

/-- Claim C6, counterexample: the simulate-payment endpoint called with an
identifier unknown to the ledger does not fail with `NotFound`: it reports
success and leaves the empty ledger empty. -/
theorem C6_counterexample :
    MockPaymentRouter.simulate_payment [] "missing" 0 =
      ({ success := true, message := "Payment simulated successfully" }, []) :=
  rfl

/-- Claim C6 (amended): the administrative override always reports success:
on an identifier unknown to the ledger it is a silent no-op (no `NotFound`
error is raised); on a known record — PENDING or already PAID — it sets the
status to PAID and overwrites `paid_at` with the current time. -/
theorem C6_simulate_amended (s : MPState) (oid : String) (now : ℚ) :
    (MockPaymentRouter.simulate_payment s oid now).1.success = true ∧
    (MockPaymentRouter.simulate_payment s oid now).1.message =
      "Payment simulated successfully" ∧
    (dictGet s oid = none →
      (MockPaymentRouter.simulate_payment s oid now).2 = s) ∧
    (∀ p, dictGet s oid = some p →
      dictGet (MockPaymentRouter.simulate_payment s oid now).2 oid =
        some { p with status := MPStatus.paid, paid_at := some now }) := by
  refine ⟨rfl, rfl, ?_, ?_⟩
  · intro hnone
    simp [MockPaymentRouter.simulate_payment,
      MockPaymentService.simulate_payment, hnone]
  · intro p hp
    simp [MockPaymentRouter.simulate_payment,
      MockPaymentService.simulate_payment, hp, dictGet_dictSet_self]

/-- Claim C6, witness: the amended theorem applied to the one-record ledger
`exState1` (order `o1` pending) and to its unknown-identifier case. -/
theorem C6_witness :
    (MockPaymentRouter.simulate_payment exState1 "o1" 5).1.success = true ∧
    dictGet (MockPaymentRouter.simulate_payment exState1 "o1" 5).2 "o1" =
      some { payment_id := "pid1", order_id := "o1", amount := 10,
             currency := "USD", phone_number := "855",
             status := MPStatus.paid, created_at := 0,
             qr_data := "mock_qr_data_pid1", md5 := "mock_md5_pid1",
             deeplink := "mock_deeplink_pid1", bill_number := "bill_o1",
             paid_at := some 5 } := by
  obtain ⟨h1, -, -, h4⟩ := C6_simulate_amended exState1 "o1" 5
  exact ⟨h1, h4 _ rfl⟩

/-- Claim C2, counterexample: after `create_payment_qr` for order `o1`,
`simulate_payment` makes the record PAID, but a second `create_payment_qr`
for the same `order_id` silently replaces it with a fresh UNPAID record, so
under the claimed operation set (which includes create) a record does leave
PAID. -/
theorem C2_counterexample :
    (dictGet exState2 "o1").map MPayment.status = some MPStatus.paid ∧
    (dictGet exState3 "o1").map MPayment.status = some MPStatus.unpaid := by
  decide

/-- Claim C2 (amended): over any sequence of status checks and
`simulate_payment` calls — any operations except a repeated
`create_payment_qr` for the same identifier — a PAID record stays PAID and
every status check on it answers `"PAID"`; likewise in the
`MockBakongService` variant a single `check_payment` on a paid record answers
`"PAID"` and keeps it paid. -/
theorem C2_monotonic_amended (s : MPState) (o : String) (ops : List MPOp)
    (hops : ∀ op ∈ ops, op.isCreateOf o = false)
    (p : MPayment) (hfind : dictGet s o = some p)
    (hpaid : p.status = MPStatus.paid) :
    (∃ q, dictGet (runOps s ops) o = some q ∧ q.status = MPStatus.paid) ∧
    (∀ now r, (check_payment_status (runOps s ops) o now r).1.status =
      some "PAID") ∧
    (∀ (bs : BState) (m : String) (now r : ℚ) (t : BTxn),
      dictGet bs m = some t → t.status = BStatus.paid →
      (check_payment bs m now r).1 = "PAID" ∧
      ∃ u, dictGet (check_payment bs m now r).2 m = some u ∧
        u.status = BStatus.paid) := by
  obtain ⟨q, hq, hqpaid⟩ := runOps_preserves_paid ops s o hops p hfind hpaid
  refine ⟨⟨q, hq, hqpaid⟩, ?_, ?_⟩
  · intro now r
    exact check_status_on_paid _ o now r q hq hqpaid
  · intro bs m now r t ht htpaid
    simp only [check_payment, ht]
    by_cases hc : now - t.created_at > 30 ∧ r < 4/5
    · rw [if_pos hc]
      exact ⟨rfl, _, dictGet_dictSet_self bs m _, rfl⟩
    · rw [if_neg hc]
      exact ⟨by simp [BStatus.upper, htpaid], t, ht, htpaid⟩

/-- Claim C2, witness: the amended theorem applied to the concrete paid
ledger `exState2`, a one-check sequence and a later check at time 7. -/
theorem C2_witness :
    (∃ q, dictGet (runOps exState2 [MPOp.check "o1" 6 (1/2)]) "o1" = some q ∧
      q.status = MPStatus.paid) ∧
    (check_payment_status (runOps exState2 [MPOp.check "o1" 6 (1/2)]) "o1" 7
        (1/2)).1.status = some "PAID" := by
  obtain ⟨h1, h2, -⟩ := C2_monotonic_amended exState2 "o1"
    [MPOp.check "o1" 6 (1/2)] (by decide)
    ⟨"pid1", "o1", 10, "USD", "855", MPStatus.paid, 0, "mock_qr_data_pid1",
      "mock_md5_pid1", "mock_deeplink_pid1", "bill_o1", some 5⟩
    (by decide) rfl
  exact ⟨h1, h2 7 (1/2)⟩

/-- Claim C5, counterexample: a second `create_payment_qr` call for the same
`order_id` succeeds and silently replaces the stored record (new
`payment_id`, status reset to UNPAID), so the ledger key is not freshly
unique. -/
theorem C5_counterexample :
    (dictGet exState2 "o1").map MPayment.payment_id = some "pid1" ∧
    (MockPaymentService.create_payment_qr exState2 "o1" 10 "855" "pid2"
        6).1.success = true ∧
    (dictGet exState3 "o1").map MPayment.payment_id = some "pid2" ∧
    (dictGet exState3 "o1").map MPayment.paid_at = some none := by
  decide

/-- Claim C5 (amended): `create_payment_qr` always stores a record with
pending (UNPAID) status carrying the fresh `payment_id`, and it leaves every
other ledger key untouched; but the key is the caller-supplied `order_id`, so
a repeated create for the same order silently replaces the existing record
(see the counterexample).  Uniqueness holds only if the caller never reuses
an `order_id`.  The `MockBakongService` variant likewise stores a pending
record under its derived hash key. -/
theorem C5_create_amended (s : MPState) (oid : String) (amount : ℚ)
    (ph pid : String) (now : ℚ) :
    ((dictGet (MockPaymentService.create_payment_qr s oid amount ph pid
        now).2 oid).map MPayment.status = some MPStatus.unpaid) ∧
    ((dictGet (MockPaymentService.create_payment_qr s oid amount ph pid
        now).2 oid).map MPayment.payment_id = some pid) ∧
    (∀ k, k ≠ oid →
      dictGet (MockPaymentService.create_payment_qr s oid amount ph pid
        now).2 k = dictGet s k) ∧
    (∀ (bs : BState) (md5Hex : String → String) (ba mn : String) (amt : ℚ)
      (curr : String) (bill : Option String) (now2 : ℚ) (nonce : ℕ),
      (dictGet (create_qr md5Hex bs ba mn amt curr bill now2 nonce).2
          (md5Hex (ba ++ toString amt ++ curr ++ toString (pyInt now2) ++
            toString nonce))).map BTxn.status = some BStatus.pending) := by
  refine ⟨?_, ?_, ?_, ?_⟩
  · simp [MockPaymentService.create_payment_qr, dictGet_dictSet_self]
  · simp [MockPaymentService.create_payment_qr, dictGet_dictSet_self]
  · intro k hk
    simp only [MockPaymentService.create_payment_qr]
    exact dictGet_dictSet_other s oid k _ hk
  · intro bs md5Hex ba mn amt curr bill now2 nonce
    simp [create_qr, dictGet_dictSet_self]

/-- Claim C5, witness: the amended theorem applied to the empty ledger with
order `o1`; the unrelated key `zz` is untouched. -/
theorem C5_witness :
    (dictGet (MockPaymentService.create_payment_qr [] "o1" 10 "855" "pid1"
        0).2 "o1").map MPayment.status = some MPStatus.unpaid ∧
    dictGet (MockPaymentService.create_payment_qr [] "o1" 10 "855" "pid1"
        0).2 "zz" = dictGet [] "zz" := by
  obtain ⟨h1, -, h3, -⟩ := C5_create_amended [] "o1" 10 "855" "pid1" 0
  exact ⟨h1, h3 "zz" (by decide)⟩

/-- Claim C7, counterexample: `get_payment_info` is not read-only: on the
pending record of `exBState`, 31 seconds after creation and with random draw
0.5, the call flips the stored status from pending to paid. -/
theorem C7_counterexample :
    (dictGet (get_payment_info exBState "k1" 31 (1/2)).2 "k1").map
        BTxn.status = some BStatus.paid ∧
    (dictGet exBState "k1").map BTxn.status = some BStatus.pending := by
  constructor
  · norm_num [get_payment_info, check_payment, exBState, exTxn, dictGet,
      dictSet]
  · decide

/-- Claim C7 (amended): `get_payment_info` has exactly the ledger side effect
of the `check_payment` call it makes internally: the state is unchanged when
the identifier is unknown, or when the 30-second threshold has not elapsed,
or when the random draw fails; but past the threshold with a draw below 0.8
it mutates the stored record's status to paid — the status it reports can be
a transition it itself caused. -/
theorem C7_get_info_amended (s : BState) (m : String) (now r : ℚ) :
    (get_payment_info s m now r).2 = (check_payment s m now r).2 ∧
    (dictGet s m = none → (get_payment_info s m now r).2 = s) ∧
    (∀ t, dictGet s m = some t → ¬(now - t.created_at > 30 ∧ r < 4/5) →
      (get_payment_info s m now r).2 = s) ∧
    (∀ t, dictGet s m = some t → now - t.created_at > 30 → r < 4/5 →
      dictGet (get_payment_info s m now r).2 m =
        some { t with status := BStatus.paid }) := by
  have hmain : (get_payment_info s m now r).2 = (check_payment s m now r).2 := by
    cases hfind : dictGet s m with
    | none => simp [get_payment_info, check_payment, hfind]
    | some t =>
        simp only [get_payment_info, hfind]
        split <;> rfl
  refine ⟨hmain, ?_, ?_, ?_⟩
  · intro hnone
    rw [hmain]
    simp [check_payment, hnone]
  · intro t ht hc
    rw [hmain]
    simp only [check_payment, ht]
    rw [if_neg hc]
  · intro t ht h30 hr
    rw [hmain]
    simp only [check_payment, ht]
    rw [if_pos ⟨h30, hr⟩]
    exact dictGet_dictSet_self s m _

/-- Claim C7, witness: the amended theorem applied to the concrete ledger
`exBState` past the threshold with a succeeding draw. -/
theorem C7_witness :
    dictGet (get_payment_info exBState "k1" 31 (1/2)).2 "k1" =
      some { exTxn with status := BStatus.paid } := by
  obtain ⟨-, -, -, h4⟩ := C7_get_info_amended exBState "k1" 31 (1/2)
  exact h4 exTxn rfl (by norm_num [exTxn]) (by norm_num)

/-- Claim C8, counterexample: `paid_at` is not set exactly once: after
`simulate_payment` at time 5 the record of order `o1` has `paid_at = 5`, and
a second `simulate_payment` at time 9 overwrites it to 9. -/
theorem C8_counterexample :
    (dictGet exState2 "o1").map MPayment.paid_at = some (some 5) ∧
    (dictGet exState4 "o1").map MPayment.paid_at = some (some 9) := by
  decide

/-- Claim C8 (amended): in the `MockPaymentService` variant the ledger
invariant "`paid_at` is present if and only if the status is PAID" holds of
the empty ledger and is preserved by every operation sequence; but `paid_at`
is not write-once: every `simulate_payment` call on a known record — already
paid or not — overwrites `paid_at` with the current time (and the
`MockBakongService` variant records no `paid_at` at all). -/
theorem C8_paid_at_amended :
    PaidAtInv [] ∧
    (∀ (ops : List MPOp) (s : MPState), PaidAtInv s →
      PaidAtInv (runOps s ops)) ∧
    (∀ (s : MPState) (o : String) (now : ℚ) (p : MPayment),
      dictGet s o = some p →
      dictGet (MockPaymentService.simulate_payment s o now) o =
        some { p with status := MPStatus.paid, paid_at := some now }) := by
  refine ⟨paidAtInv_nil, ?_, ?_⟩
  · intro ops s hinv
    exact runOps_preserves_paidAtInv ops s hinv
  · intro s o now p hp
    simp [MockPaymentService.simulate_payment, hp, dictGet_dictSet_self]

/-- Claim C8, witness: the amended theorem applied to the already-paid ledger
`exState2` (whose record has `paid_at = 5`) at time 9: `paid_at` is rewritten
to 9. -/
theorem C8_witness :
    dictGet (MockPaymentService.simulate_payment exState2 "o1" 9) "o1" =
      some { payment_id := "pid1", order_id := "o1", amount := 10,
             currency := "USD", phone_number := "855",
             status := MPStatus.paid, created_at := 0,
             qr_data := "mock_qr_data_pid1", md5 := "mock_md5_pid1",
             deeplink := "mock_deeplink_pid1", bill_number := "bill_o1",
             paid_at := some 9 } := by
  obtain ⟨-, -, h3⟩ := C8_paid_at_amended
  exact h3 exState2 "o1" 9
    ⟨"pid1", "o1", 10, "USD", "855", MPStatus.paid, 0, "mock_qr_data_pid1",
      "mock_md5_pid1", "mock_deeplink_pid1", "bill_o1", some 5⟩ (by decide)

/-- Claim C9, counterexample: a status check on a known fresh record in the
`MockPaymentService` variant answers `"UNPAID"`, a value outside the claimed
closed enumeration containing only PENDING and PAID. -/
theorem C9_counterexample :
    (check_payment_status exState1 "o1" 0 (1/2)).1.status = some "UNPAID" ∧
    ("UNPAID" : String) ≠ "PENDING" ∧ ("UNPAID" : String) ≠ "PAID" := by
  refine ⟨?_, by decide, by decide⟩
  norm_num [check_payment_status, exState1,
    MockPaymentService.create_payment_qr, dictGet, dictSet, MPStatus.str]

/-- Claim C9 (amended): `MockBakongService.check_payment` answers
`"NOT_FOUND"` exactly on identifiers unknown to its ledger and one of
PENDING or PAID on known ones; `MockPaymentService.check_payment_status`
reports a `"Payment not found"` failure on unknown identifiers and one of
UNPAID (not PENDING) or PAID on known ones. -/
theorem C9_status_enum_amended (s : BState) (m : String) (now r : ℚ) :
    ((check_payment s m now r).1 = "NOT_FOUND" ↔ dictGet s m = none) ∧
    (∀ t, dictGet s m = some t →
      (check_payment s m now r).1 = "PENDING" ∨
      (check_payment s m now r).1 = "PAID") ∧
    (∀ (ms : MPState) (oid : String) (now2 r2 : ℚ),
      (dictGet ms oid = none →
        (check_payment_status ms oid now2 r2).1.success = false ∧
        (check_payment_status ms oid now2 r2).1.error =
          some "Payment not found") ∧
      (∀ p, dictGet ms oid = some p →
        (check_payment_status ms oid now2 r2).1.status = some "UNPAID" ∨
        (check_payment_status ms oid now2 r2).1.status = some "PAID")) := by
  refine ⟨?_, ?_, ?_⟩
  · cases hfind : dictGet s m with
    | none => simp [check_payment, hfind]
    | some t =>
        simp only [check_payment, hfind]
        constructor
        · intro h
          exfalso
          by_cases hc : now - t.created_at > 30 ∧ r < 4/5
          · rw [if_pos hc] at h
            exact absurd (show ("PAID" : String) = "NOT_FOUND" from h)
              (by decide)
          · rw [if_neg hc] at h
            cases hts : t.status
            · rw [hts] at h
              exact absurd (show ("PENDING" : String) = "NOT_FOUND" from h)
                (by decide)
            · rw [hts] at h
              exact absurd (show ("PAID" : String) = "NOT_FOUND" from h)
                (by decide)
        · intro h
          cases h
  · intro t ht
    simp only [check_payment, ht]
    by_cases hc : now - t.created_at > 30 ∧ r < 4/5
    · rw [if_pos hc]
      exact Or.inr rfl
    · rw [if_neg hc]
      cases hts : t.status
      · exact Or.inl rfl
      · exact Or.inr rfl
  · intro ms oid now2 r2
    constructor
    · intro hnone
      simp [check_payment_status, hnone]
    · intro p hp
      simp only [check_payment_status, hp]
      by_cases hr : r2 > 7/10
      · right
        rw [if_pos hr]
        rfl
      · rw [if_neg hr]
        cases hps : p.status
        · exact Or.inl rfl
        · exact Or.inr rfl

/-- Claim C9, witness: the amended theorem applied to the concrete ledger
`exBState` at time 1 with draw 0.5. -/
theorem C9_witness :
    ((check_payment exBState "k1" 1 (1/2)).1 = "NOT_FOUND" ↔
      dictGet exBState "k1" = none) ∧
    ((check_payment exBState "k1" 1 (1/2)).1 = "PENDING" ∨
      (check_payment exBState "k1" 1 (1/2)).1 = "PAID") := by
  obtain ⟨h1, h2, -⟩ := C9_status_enum_amended exBState "k1" 1 (1/2)
  exact ⟨h1, h2 exTxn rfl⟩

/-- Claim C10: in the `MockPaymentService` variant the stored currency is the
constant `"USD"`, and the create-QR response and resulting ledger are
independent of the currency the caller put in the request (the router never
forwards it). -/
theorem C10_currency_constant (s : MPState) (req : PaymentRequest)
    (c2 ph pid : String) (now : ℚ) :
    MockPaymentRouter.create_payment_qr s { req with currency := c2 } ph pid
        now =
      MockPaymentRouter.create_payment_qr s req ph pid now ∧
    (dictGet (MockPaymentRouter.create_payment_qr s req ph pid now).2
        req.order_id).map MPayment.currency = some "USD" := by
  constructor
  · rfl
  · simp [MockPaymentRouter.create_payment_qr,
      MockPaymentService.create_payment_qr, dictGet_dictSet_self]
